import Mathlib

/-!
Verification of the M3PI multi-agent RAG orchestration system.

Shallow embedding of `src/agents/orchestrator.py`, `src/agents/agent.py`
and the agent subclasses. External collaborators (FAISS index loading,
the retriever, the OpenAI chat model, file reads, the Langfuse trace
sink) are modelled as an explicit environment of fallible calls, where
`Except.error e` models a raised Python exception whose `str` is `e`.
-/

namespace M3PI

/-- `AgentType` enum from `src/enums/agent_enums.py`. -/
inductive AgentType where
  | HR
  | FINANCE
  | TECH
deriving DecidableEq

/-- The `.value` of each enum member. -/
def AgentType.value : AgentType → String
  | .HR => "HRAgent"
  | .FINANCE => "FinanceAgent"
  | .TECH => "TechAgent"

/-- `Agent` base class (`src/agents/agent.py`): holds the `name` passed to
`__init__`. The subclasses pass the `AgentType` enum member itself. -/
structure Agent where
  name : AgentType

/-- `Agent.run` (`src/agents/agent.py` lines 35-41): prints and returns a
fixed instruction string. -/
def Agent.run (_a : Agent) : String :=
  "creatively answer query using less than 130 words."

/-- A retrieved LangChain document: page content plus metadata. -/
structure Document where
  page_content : String
  metadata : List (String × String)
deriving DecidableEq

/-- One entry of `chunks_data` built in `create_agent_qa_chain`. -/
structure ChunkData where
  chunk_id : Nat
  content : String
  metadata : List (String × String)
deriving DecidableEq

/-- The dict returned by `create_agent_qa_chain` (both branches): `error`
is `some e` exactly on the fallback branch. -/
structure QAChainResult where
  response : String
  chunks : List ChunkData
  num_chunks : Nat
  agent : String
  model : String
  error : Option String
deriving DecidableEq

/-- Opaque handle for a loaded FAISS vector store. -/
structure VectorStore where
  id : Nat
deriving DecidableEq

/-- Opaque Langfuse `CallbackHandler` token. -/
abbrev Handler := Nat

/-- `CallbackHandler()` constructed in each per-agent wrapper function. -/
def callbackHandler : Handler := 0

/-- `[langfuse_handler] if langfuse_handler else []` from the source. -/
def handlerList : Option Handler → List Handler
  | some h => [h]
  | none => []

/-- The `ChatOpenAI(...)` keyword arguments built in `create_agent_qa_chain`. -/
structure ChatOpenAIConfig where
  model : String
  temperature : Nat
  max_completion_tokens : Nat
  callbacks : List Handler
deriving DecidableEq

/-- The `ChatOpenAI` construction on the success path of
`create_agent_qa_chain` (orchestrator.py lines 80-85). -/
def qaLLMConfig (model_name : String) (langfuse_handler : Option Handler) :
    ChatOpenAIConfig :=
  { model := model_name
  , temperature := 0
  , max_completion_tokens := 130
  , callbacks := handlerList langfuse_handler }

/-- Input dict passed to `qa_chain.invoke` (orchestrator.py line 114). -/
structure ChainInput where
  question : String
  agent_type : String
deriving DecidableEq

/-- Output of the `RunnableMap` stage: the three template variables. -/
structure MapOutput where
  context : String
  question : String
  agent_type : String
deriving DecidableEq

/-- The `RunnableMap` of `create_agent_qa_chain` (orchestrator.py lines
96-105): `context` joins the retrieved page contents with a blank line,
`question` and `agent_type` are forwarded from the invoke input. -/
def runnableMapApply (retrieved_docs : List Document) (x : ChainInput) :
    MapOutput :=
  { context := String.intercalate "\n\n" (retrieved_docs.map Document.page_content)
  , question := x.question
  , agent_type := x.agent_type }

/-- Environment of external fallible calls made inside the `try` block of
`create_agent_qa_chain`. `Except.error e` models a raised exception. -/
structure Env where
  get_local_index : AgentType → Except String VectorStore
  retriever_invoke : VectorStore → Nat → String → Except String (List Document)
  read_prompt_template : Except String String
  llm_invoke : ChatOpenAIConfig → List Handler → String → MapOutput →
    Except String String

/-- Python dict lookup `d[k]` result (None models a `KeyError`). -/
def pyDictGet {V : Type} (d : List (String × V)) (k : String) : Option V :=
  (d.find? (fun p => p.1 = k)).map Prod.snd

/-- Python dict-literal insertion semantics: an existing key keeps its
position but takes the new value; a fresh key is appended. -/
def pyDictInsert {V : Type} (d : List (String × V)) (k : String) (v : V) :
    List (String × V) :=
  if d.any (fun p => p.1 = k) then
    d.map (fun p => if p.1 = k then (k, v) else p)
  else d ++ [(k, v)]

/-- A Python dict literal built from its entry list, left to right. -/
def pyDictLit {V : Type} (ps : List (String × V)) : List (String × V) :=
  ps.foldl (fun d p => pyDictInsert d p.1 p.2) []

/-- `HRAgent()` (`src/agents/hr_agent.py`): `Agent.__init__(AgentType.HR)`. -/
def HRAgent_new : Unit → Except String Agent :=
  fun _ => .ok { name := AgentType.HR }

/-- `TechAgent()` (`src/agents/tech_agent.py`). -/
def TechAgent_new : Unit → Except String Agent :=
  fun _ => .ok { name := AgentType.TECH }

/-- `FinanceAgent()` (`src/agents/finance_agent.py`). -/
def FinanceAgent_new : Unit → Except String Agent :=
  fun _ => .ok { name := AgentType.FINANCE }

/-- Entry list of the module-level `agents` dict literal
(orchestrator.py lines 37-41), in source order. -/
def agentsEntries : List (String × (Unit → Except String Agent)) :=
  [ (AgentType.HR.value, HRAgent_new)
  , (AgentType.TECH.value, TechAgent_new)
  , (AgentType.FINANCE.value, FinanceAgent_new) ]

/-- The module-level `agents` mapping with Python dict-literal semantics. -/
def agents : List (String × (Unit → Except String Agent)) :=
  pyDictLit agentsEntries

/-- Left-to-right non-overlapping replacement on character lists, with
fuel (the fuel is instantiated with the string length, which bounds the
number of steps since every step consumes at least one character). -/
def replaceFuel (pat rep : List Char) : Nat → List Char → List Char
  | _, [] => []
  | 0, l => l
  | fuel + 1, c :: cs =>
    if pat ≠ [] ∧ pat.isPrefixOf (c :: cs) then
      rep ++ replaceFuel pat rep fuel ((c :: cs).drop pat.length)
    else
      c :: replaceFuel pat rep fuel cs

/-- Python `s.replace(pat, rep)` for non-empty `pat`: replace every
non-overlapping occurrence, scanning left to right. -/
def pyReplace (s pat rep : String) : String :=
  ⟨replaceFuel pat.data rep.data s.data.length s.data⟩

/-- The body of the `try` block of `create_agent_qa_chain`
(orchestrator.py lines 60-126): index acquisition, top-3 retrieval,
chunk logging data, LLM construction, prompt template load, the
`RunnableMap | prompt | llm` pipeline invocation, and the success dict. -/
def qaTryBody (env : Env) (agent_obj : Agent) (model_name agent query : String)
    (langfuse_handler : Option Handler) : Except String QAChainResult := do
  let vector_store ← env.get_local_index agent_obj.name
  let retrieved_docs ← env.retriever_invoke vector_store 3 query
  let chunks_data : List ChunkData := retrieved_docs.enum.map (fun p =>
    { chunk_id := p.1 + 1, content := p.2.page_content, metadata := p.2.metadata })
  let llm := qaLLMConfig model_name langfuse_handler
  let prompt_template ← env.read_prompt_template
  let mapOut := runnableMapApply retrieved_docs
    { question := query, agent_type := pyReplace agent "Agent" "" }
  let content ← env.llm_invoke llm (handlerList langfuse_handler) prompt_template mapOut
  Except.ok
    { response := content
    , chunks := chunks_data
    , num_chunks := chunks_data.length
    , agent := agent
    , model := model_name
    , error := none }

/-- `create_agent_qa_chain`, generic in the agent mapping: the lookup
`agents[agent]` and the constructor call happen before the `try` block,
so their exceptions propagate; every exception inside the `try` block is
absorbed into the fallback dict built from `agent_obj.run()`. -/
def create_agent_qa_chain_gen (m : List (String × (Unit → Except String Agent)))
    (env : Env) (model_name agent query : String)
    (langfuse_handler : Option Handler) : Except String QAChainResult := do
  let ctor ← match pyDictGet m agent with
    | some c => Except.ok c
    | none => Except.error ("KeyError: " ++ agent)
  let agent_obj ← ctor ()
  match qaTryBody env agent_obj model_name agent query langfuse_handler with
  | .ok r => Except.ok r
  | .error e =>
    Except.ok
      { response := agent_obj.run
      , chunks := []
      , num_chunks := 0
      , agent := agent
      , model := model_name
      , error := some e }

/-- `create_agent_qa_chain` with the module-level `agents` mapping. -/
def create_agent_qa_chain (env : Env) (model_name agent query : String)
    (langfuse_handler : Option Handler) : Except String QAChainResult :=
  create_agent_qa_chain_gen agents env model_name agent query langfuse_handler

/-- Shared body of `hr_agent_func` / `tech_agent_func` /
`finance_agent_func`: create a `CallbackHandler`, run the chain, and
return the dict's `response` entry (the result is always a dict). -/
def agent_func_body (env : Env) (model_name name query : String) :
    Except String String :=
  match create_agent_qa_chain env model_name name query (some callbackHandler) with
  | .ok r => Except.ok r.response
  | .error e => Except.error e

/-- `hr_agent_func` (orchestrator.py lines 147-161). -/
def hr_agent_func (env : Env) (model_name query : String) : Except String String :=
  agent_func_body env model_name "HRAgent" query

/-- `tech_agent_func` (orchestrator.py lines 164-177). -/
def tech_agent_func (env : Env) (model_name query : String) : Except String String :=
  agent_func_body env model_name "TechAgent" query

/-- `finance_agent_func` (orchestrator.py lines 180-193). -/
def finance_agent_func (env : Env) (model_name query : String) : Except String String :=
  agent_func_body env model_name "FinanceAgent" query

/-- A LangChain `Tool` entry: name, invoke function, description. -/
structure Tool where
  name : String
  func : String → Except String String
  description : String

/-- The module-level `tools` list (orchestrator.py lines 196-212),
parameterized by the ambient environment and model name. -/
def tools (env : Env) (model_name : String) : List Tool :=
  [ { name := "HRAgent"
    , func := hr_agent_func env model_name
    , description := "Answers questions related to Human Resources (policies, benefits, etc)." }
  , { name := "TechAgent"
    , func := tech_agent_func env model_name
    , description := "Answers Technical Support questions (IT issues, software, etc)." }
  , { name := "FinanceAgent"
    , func := finance_agent_func env model_name
    , description := "Answers questions related to Finance (budget, expenses, etc)." } ]

/-- Python 3 builtin `round` restricted to exact rational inputs: round
half to even (banker's rounding). -/
def pyRound (q : ℚ) : ℤ :=
  if q - Int.floor q < 1 / 2 then Int.floor q
  else if 1 / 2 < q - Int.floor q then Int.floor q + 1
  else if Int.floor q % 2 = 0 then Int.floor q else Int.floor q + 1

/-- The dict returned by `evaluate_rag_quality`. -/
structure EvalResult where
  score : ℚ
  reasoning : String

/-- A LangChain message as the extraction code sees it: `content` is
`some c` when the object has a `content` attribute, and `str_repr` is its
`str(...)` rendering. -/
structure Message where
  content : Option String
  str_repr : String
deriving DecidableEq

/-- The dict returned by `agent_graph.invoke`. -/
structure GraphResult where
  messages : List Message
  str_repr : String
deriving DecidableEq

/-- Environment of external calls made by `Orchestrator.run` and
`Orchestrator._evaluate_response`. -/
structure OrchEnv where
  evaluator_available : Bool
  agent_graph_invoke : String → String → Except String GraphResult
  evaluate_rag_quality : String → String → Option String → Except String EvalResult
  score_current_trace : String → ℤ → String → String → Except String Unit

/-- The `Orchestrator` instance state set by `__init__`
(orchestrator.py lines 220-230). -/
structure Orchestrator where
  query : String
  system_prompt : String
  model_string : String

/-- `Orchestrator.__init__(query)`: stores the query, loads the routing
prompt once, strips its literal query slot and surrounding whitespace,
and records the model string. -/
def mkOrchestrator (query prompt_text model_name : String) : Orchestrator :=
  { query := query
  , system_prompt := (pyReplace prompt_text "User query: {query}" "").trim
  , model_string := "openai:" ++ model_name }

/-- Response extraction in `Orchestrator.run` (orchestrator.py lines
276-284): last message's `content` if messages are present (falling back
to `str(last_message)` without a `content` attribute), else `str(result)`. -/
def extract_response (result : GraphResult) : String :=
  match result.messages.getLast? with
  | some last =>
    match last.content with
    | some c => c
    | none => last.str_repr
  | none => result.str_repr

/-- `Orchestrator._evaluate_response` (orchestrator.py lines 291-337):
returns what was attached to the trace (`none` when the evaluator is
unavailable or any step of the `try` block raised). -/
def evaluate_response (env : OrchEnv) (query response : String) :
    Option (ℤ × String) :=
  if env.evaluator_available then
    match (do
      let eval_result ← env.evaluate_rag_quality query response none
      let rounded_score := pyRound eval_result.score
      let _ ← env.score_current_trace "Evaluation Score (0-10)" rounded_score
        "NUMERIC" eval_result.reasoning
      Except.ok (rounded_score, eval_result.reasoning) :
        Except String (ℤ × String)) with
    | .ok p => some p
    | .error _ => none
  else none

/-- `Orchestrator.run` (orchestrator.py lines 232-289): invoke the tool
agent graph, extract the final response text, run the evaluation side
effect, and return the response (paired here with the trace attachment
produced by the side effect). -/
def Orchestrator.run (env : OrchEnv) (o : Orchestrator) :
    Except String (String × Option (ℤ × String)) := do
  let result ← env.agent_graph_invoke o.system_prompt o.query
  let response := extract_response result
  let attached := evaluate_response env o.query response
  Except.ok (response, attached)

/-- The attribute names `class Orchestrator` defines
(orchestrator.py lines 215-337). -/
def Orchestrator.method_names : List String :=
  ["__init__", "run", "_evaluate_response"]

/-- The parameter names of `Orchestrator.__init__`
(orchestrator.py line 220). -/
def Orchestrator.init_param_names : List String :=
  ["self", "query"]

/-- The methods `tests/test_evaluator.py` lines 40-42 invoke on the
`Orchestrator` instance it builds with `Orchestrator()` (zero
constructor arguments). -/
def test_evaluator_orchestrator_calls : List String :=
  ["set_query", "run"]

/-- Number of positional arguments `tests/test_evaluator.py` line 40
passes to `Orchestrator()`. -/
def test_evaluator_ctor_args : Nat := 0

/-- Counts maximal space-free runs; the flag records whether the scan is
inside a word. -/
def wordCountAux : Bool → List Char → Nat
  | _, [] => 0
  | inWord, c :: cs =>
    if c = ' ' then wordCountAux false cs
    else (if inWord then 0 else 1) + wordCountAux true cs

/-- Space-separated word count of a string (Python `len(s.split())` for
strings whose only whitespace is the space character). -/
def wordCount (s : String) : Nat :=
  wordCountAux false s.data

/-- The spec's domain name for each agent type (the persona the grounding
prompt names). -/
def AgentType.domainName : AgentType → String
  | .HR => "HR"
  | .TECH => "Tech"
  | .FINANCE => "Finance"

/-- Registration following the spec's words: registering a second value
for an already-present domain identifier fails with `DuplicateAgent`.
Stated for comparison with the source's dict-literal semantics
(`pyDictInsert`), which never fails. -/
def specRegister {V : Type} (d : List (String × V)) (k : String) (v : V) :
    Except String (List (String × V)) :=
  if d.any (fun p => p.1 = k) then Except.error "DuplicateAgent"
  else Except.ok (d ++ [(k, v)])

/-- An environment whose external calls all fail: the FAISS index is
unavailable and nothing downstream is reachable. -/
def failEnv : Env :=
  { get_local_index := fun _ => Except.error "index missing"
  , retriever_invoke := fun _ _ _ => Except.error "unreachable"
  , read_prompt_template := Except.error "unreachable"
  , llm_invoke := fun _ _ _ _ => Except.error "unreachable" }

/-- A constructor that raises, for exercising the pre-`try` position of
agent construction. -/
def badCtor : Unit → Except String Agent :=
  fun _ => Except.error "constructor boom"

/-- Concrete orchestration environment whose scorer returns 6.5 and whose
trace attachment succeeds. -/
def scorerEnv65 : OrchEnv :=
  { evaluator_available := true
  , agent_graph_invoke := fun _ _ => Except.error "unused"
  , evaluate_rag_quality := fun _ _ _ =>
      Except.ok { score := 13 / 2, reasoning := "ok" }
  , score_current_trace := fun _ _ _ _ => Except.ok () }

/-- `env` with its generation call replaced by one that fails on every
configuration other than the exact `ChatOpenAI` arguments and invoke
callbacks the source builds: used to state that the answerer only ever
calls the generation service with that configuration. -/
def guardEnv (env : Env) (model_name : String) (hdl : Option Handler) : Env :=
  { env with llm_invoke := fun c cb tmpl m =>
      if c = qaLLMConfig model_name hdl ∧ cb = handlerList hdl then
        env.llm_invoke c cb tmpl m
      else Except.error "unexpected LLM configuration" }

/-- Helper: the per-agent wrapper body is the `response` projection of the
chain result. -/
theorem agent_func_body_map (env : Env) (model_name name query : String) :
    agent_func_body env model_name name query
      = Except.map QAChainResult.response
          (create_agent_qa_chain env model_name name query (some callbackHandler)) := by
  unfold agent_func_body
  cases create_agent_qa_chain env model_name name query (some callbackHandler) <;> rfl

/-- Helper: guarding the generation call with the exact source-built
configuration does not change the try-block result. -/
theorem qaTryBody_guardEnv (env : Env) (a : Agent) (model_name agent query : String)
    (hdl : Option Handler) :
    qaTryBody (guardEnv env model_name hdl) a model_name agent query hdl
      = qaTryBody env a model_name agent query hdl := by
  unfold qaTryBody guardEnv
  cases env.get_local_index a.name <;> simp [bind, Except.bind]

/-- Helper: guarding the generation call does not change the chain result. -/
theorem create_agent_qa_chain_gen_guardEnv
    (m : List (String × (Unit → Except String Agent))) (env : Env)
    (model_name agent query : String) (hdl : Option Handler) :
    create_agent_qa_chain_gen m (guardEnv env model_name hdl) model_name agent query hdl
      = create_agent_qa_chain_gen m env model_name agent query hdl := by
  unfold create_agent_qa_chain_gen
  cases pyDictGet m agent with
  | none => rfl
  | some c =>
    cases c () <;> simp [bind, Except.bind, qaTryBody_guardEnv]

/-- C9: for every domain agent, the degraded answer (`Agent.run`) is the
same fixed string on every call, is non-empty, and is an instruction of
at most 130 words. -/
theorem degraded_answer_fixed_nonempty_short :
    (∀ a : Agent, a.run = "creatively answer query using less than 130 words.")
    ∧ (∀ a b : Agent, a.run = b.run)
    ∧ (∀ a : Agent, a.run ≠ "")
    ∧ (∀ a : Agent, wordCount a.run ≤ 130) := by
  refine ⟨fun _ => rfl, fun _ _ => rfl, ?_, ?_⟩
  · intro a
    show "creatively answer query using less than 130 words." ≠ ""
    decide
  · intro a
    show wordCount "creatively answer query using less than 130 words." ≤ 130
    decide

/-- C4: the repository's own test drives `Orchestrator` through a no-arg
constructor plus `set_query`, but the class takes the query as a required
`__init__` parameter and defines no `set_query` method, so the query is
not settable independently of construction. -/
theorem orchestrator_query_not_settable_independently :
    "set_query" ∈ test_evaluator_orchestrator_calls
    ∧ "set_query" ∉ Orchestrator.method_names
    ∧ "query" ∈ Orchestrator.init_param_names
    ∧ Orchestrator.init_param_names.length = 2
    ∧ test_evaluator_ctor_args = 0 := by decide

/-- C5 counterexample: registering a second value for an already-present
key under the source's dict semantics does not fail — it silently
overwrites (last value wins) — whereas the spec's `DuplicateAgent`
registration rejects the same input. -/
theorem duplicate_registration_does_not_fail :
    pyDictLit [("HRAgent", (1 : Nat)), ("HRAgent", 2)] = [("HRAgent", 2)]
    ∧ pyDictInsert [("HRAgent", (1 : Nat))] "HRAgent" 2 = [("HRAgent", 2)]
    ∧ specRegister [("HRAgent", (1 : Nat))] "HRAgent" 2
        = Except.error "DuplicateAgent" :=
  ⟨rfl, rfl, rfl⟩

/-- C5 (amended): the registry holds exactly one capability per domain
(HR, Tech, Finance) with no duplicate identifiers, but there is no
`DuplicateAgent` failure: a duplicate key in the mapping is silently
resolved last-wins. -/
theorem registry_one_capability_per_domain (env : Env) (model_name : String) :
    agents.map Prod.fst
        = [AgentType.HR.value, AgentType.TECH.value, AgentType.FINANCE.value]
    ∧ (agents.map Prod.fst).Nodup
    ∧ (tools env model_name).map Tool.name = ["HRAgent", "TechAgent", "FinanceAgent"]
    ∧ ((tools env model_name).map Tool.name).Nodup
    ∧ (∀ (k : String) (v₁ v₂ : Nat), pyDictLit [(k, v₁), (k, v₂)] = [(k, v₂)]) := by
  refine ⟨rfl, by decide, rfl, ?_, ?_⟩
  · show (["HRAgent", "TechAgent", "FinanceAgent"] : List String).Nodup
    decide
  · intro k v₁ v₂
    simp [pyDictLit, pyDictInsert]

/-- C7: the grounding prompt variables are composed from the retrieved
passages joined in rank order by a blank line, the literal query, and the
agent's domain name. -/
theorem grounding_prompt_composition
    (t : AgentType) (retrieved_docs : List Document) (query : String) :
    runnableMapApply retrieved_docs
        { question := query, agent_type := pyReplace t.value "Agent" "" }
      = { context := String.intercalate "\n\n"
            (retrieved_docs.map Document.page_content)
        , question := query
        , agent_type := t.domainName } := by
  cases t <;> rfl

/-- C10: the agent lookup and construction happen before the
exception-absorbing `try` block, so an unknown agent name (or a raising
constructor) propagates an exception to the caller instead of producing a
degraded result. -/
theorem lookup_and_construction_precede_try
    (m : List (String × (Unit → Except String Agent))) (env : Env)
    (model_name name query : String) (hdl : Option Handler) :
    (pyDictGet m name = none →
      create_agent_qa_chain_gen m env model_name name query hdl
        = Except.error ("KeyError: " ++ name))
    ∧ (∀ (ctor : Unit → Except String Agent) (e : String),
        pyDictGet m name = some ctor → ctor () = Except.error e →
        create_agent_qa_chain_gen m env model_name name query hdl
          = Except.error e)
    ∧ create_agent_qa_chain env model_name name query hdl
        = create_agent_qa_chain_gen agents env model_name name query hdl := by
  refine ⟨?_, ?_, rfl⟩
  · intro h
    simp [create_agent_qa_chain_gen, h, bind, Except.bind]
  · intro ctor e h1 h2
    simp [create_agent_qa_chain_gen, h1, h2, bind, Except.bind]

/-- C10 witness: an unregistered name raises a `KeyError`, and a raising
constructor propagates, both with no degraded result. -/
theorem lookup_and_construction_precede_try_witness :
    create_agent_qa_chain_gen agents failEnv "gpt-4" "Unknown" "q" none
      = Except.error ("KeyError: " ++ "Unknown")
    ∧ create_agent_qa_chain_gen [("X", badCtor)] failEnv "gpt-4" "X" "q" none
      = Except.error "constructor boom" :=
  ⟨(lookup_and_construction_precede_try agents failEnv "gpt-4" "Unknown" "q" none).1 rfl,
   (lookup_and_construction_precede_try [("X", badCtor)] failEnv "gpt-4" "X" "q"
      none).2.1 badCtor "constructor boom" rfl rfl⟩

/-- C1: for every domain agent and query, if any exception is raised
inside the `try` block (index acquisition, retrieval, template load or
generation), the answerer returns — rather than raises — a result whose
response text is the agent's fixed degraded answer, whose passage list is
empty, and which carries the captured error message. -/
theorem answerer_absorbs_try_block_failures
    (env : Env) (t : AgentType) (model_name query : String)
    (hdl : Option Handler) (e : String)
    (h : qaTryBody env { name := t } model_name t.value query hdl
          = Except.error e) :
    create_agent_qa_chain env model_name t.value query hdl
      = Except.ok
          { response := ({ name := t } : Agent).run
          , chunks := []
          , num_chunks := 0
          , agent := t.value
          , model := model_name
          , error := some e } := by
  cases t <;>
    simp [create_agent_qa_chain, create_agent_qa_chain_gen, AgentType.value,
      bind, Except.bind, h,
      show pyDictGet agents "HRAgent" = some HRAgent_new from rfl,
      show pyDictGet agents "TechAgent" = some TechAgent_new from rfl,
      show pyDictGet agents "FinanceAgent" = some FinanceAgent_new from rfl,
      HRAgent_new, TechAgent_new, FinanceAgent_new] at h ⊢

/-- C1 witness: with the HR index unavailable, the answerer returns the
degraded result instead of raising. -/
theorem answerer_absorbs_try_block_failures_witness :
    create_agent_qa_chain failEnv "gpt-4" "HRAgent" "hello" none
      = Except.ok
          { response := "creatively answer query using less than 130 words."
          , chunks := []
          , num_chunks := 0
          , agent := "HRAgent"
          , model := "gpt-4"
          , error := some "index missing" } :=
  answerer_absorbs_try_block_failures failEnv AgentType.HR "gpt-4" "hello" none
    "index missing" rfl

/-- C2: the response text `Orchestrator.run` returns is exactly the text
extracted from the agent-graph result and is unaffected by the quality
scorer: every scorer behaviour (unavailable, raising, or succeeding)
leaves the returned text unchanged, and a raising scorer attaches no
score. -/
theorem scorer_failures_never_affect_response
    (env : OrchEnv) (o : Orchestrator) (b b' : Bool)
    (f f' : String → String → Option String → Except String EvalResult)
    (g g' : String → ℤ → String → String → Except String Unit)
    (r : GraphResult) (e : String) :
    (Orchestrator.run
        { env with
          evaluator_available := b,
          evaluate_rag_quality := f,
          score_current_trace := g } o).map Prod.fst
      = (Orchestrator.run
          { env with
            evaluator_available := b',
            evaluate_rag_quality := f',
            score_current_trace := g' } o).map Prod.fst
    ∧ Orchestrator.run
        { env with
          agent_graph_invoke := fun _ _ => Except.ok r,
          evaluate_rag_quality := fun _ _ _ => Except.error e } o
      = Except.ok (extract_response r, none) := by
  constructor
  · cases h : env.agent_graph_invoke o.system_prompt o.query <;>
      simp [Orchestrator.run, h, bind, Except.bind, Except.map]
  · cases hb : env.evaluator_available <;>
      simp [Orchestrator.run, evaluate_response, hb, bind, Except.bind]

/-- C3 counterexample: a score of 6.5 is attached as 6, not 7 — Python's
`round` rounds a half to the nearest even integer, not up. -/
theorem half_up_rounding_counterexample :
    evaluate_response scorerEnv65 "q" "resp" = some (6, "ok")
    ∧ (6 : ℤ) ≠ 7 := by
  refine ⟨?_, by decide⟩
  simp [evaluate_response, scorerEnv65, bind, Except.bind]
  norm_num [pyRound]

/-- C3 (amended): the value attached to the trace is the score rounded to
the nearest integer with ties rounded half-to-even (banker's rounding):
7.5 is attached as 8 but 6.5 as 6. -/
theorem attached_score_is_banker_rounded
    (env : OrchEnv) (score : ℚ) (reasoning q resp : String) :
    evaluate_response
        { env with
          evaluator_available := true,
          evaluate_rag_quality := fun _ _ _ =>
            Except.ok { score := score, reasoning := reasoning },
          score_current_trace := fun _ _ _ _ => Except.ok () } q resp
      = some (pyRound score, reasoning)
    ∧ (∀ n : ℤ, pyRound ((n : ℚ) + 1 / 2)
        = if n % 2 = 0 then n else n + 1)
    ∧ pyRound (15 / 2) = 8
    ∧ pyRound (13 / 2) = 6 := by
  refine ⟨?_, ?_, by norm_num [pyRound], by norm_num [pyRound]⟩
  · simp [evaluate_response, bind, Except.bind]
  · intro n
    have hfl : Int.floor ((n : ℚ) + 1 / 2) = n := by
      rw [add_comm, Int.floor_add_int]
      norm_num
    simp only [pyRound, hfl]
    norm_num

/-- C6: replacing the generation call by one that rejects every
configuration except temperature 0, a 130-token output cap and the
caller-supplied callback does not change the answerer's behaviour — i.e.
the generation service is only ever invoked with that configuration — and
that configuration passes the caller's tracing callback through. -/
theorem llm_invoked_with_fixed_config
    (env : Env) (model_name agent query : String) (hdl : Option Handler)
    (h : Handler) :
    create_agent_qa_chain (guardEnv env model_name hdl) model_name agent query hdl
      = create_agent_qa_chain env model_name agent query hdl
    ∧ (qaLLMConfig model_name hdl).temperature = 0
    ∧ (qaLLMConfig model_name hdl).max_completion_tokens = 130
    ∧ (qaLLMConfig model_name hdl).callbacks = handlerList hdl
    ∧ handlerList (some h) = [h] :=
  ⟨create_agent_qa_chain_gen_guardEnv agents env model_name agent query hdl,
   rfl, rfl, rfl, rfl⟩

/-- C8: each registered capability's invoke function returns exactly the
`response` string of the structured result the answerer produces for that
capability's domain — a plain string, never the structured dict. -/
theorem tools_expose_response_text_only (env : Env) (model_name query : String) :
    (tools env model_name).map (fun t => (t.name, t.func query))
      = [ ("HRAgent", Except.map QAChainResult.response
            (create_agent_qa_chain env model_name "HRAgent" query
              (some callbackHandler)))
        , ("TechAgent", Except.map QAChainResult.response
            (create_agent_qa_chain env model_name "TechAgent" query
              (some callbackHandler)))
        , ("FinanceAgent", Except.map QAChainResult.response
            (create_agent_qa_chain env model_name "FinanceAgent" query
              (some callbackHandler))) ] := by
  simp [tools, hr_agent_func, tech_agent_func, finance_agent_func,
    agent_func_body_map]

end M3PI
